import Mathlib

/-!
Shallow embedding of the sunspot backend (src/backend/backend.py).

The backend resolves a user-supplied date token to a canonical calendar
date, builds a Redis cache key from the coordinates and that date, serves
a cached sun-event payload on a hit, and on a miss calls the external
sunrise-sunset provider and writes the fresh payload back with a
freshness-dependent TTL.  The Django view wires this together with two
Nominatim geocoding helpers.

Modelling conventions:
* External collaborators (dateutil's permissive parser, the Redis client,
  the HTTP providers, the JSON codec, Python float parsing and str
  rendering) are fields of an explicit `Env` record; each claim is proved
  for every environment, or refuted at a concrete one.
* Python values flowing through the JSON layer are the inductive `JVal`;
  Python `None` and JSON `null` are the same value `JVal.null`, exactly as
  in CPython where `json.loads` of the text `null` returns `None`.
* Calendar dates are modelled as integer day numbers; `timedelta(days=1)`
  is `+ 1`, and the `strftime` rendering to `YYYY-MM-DD` is modelled by the
  (injective, deterministic) decimal rendering `fmtDate`.
* A raised-and-caught Python exception is an `Except.error` consumed at
  the `try` boundary that catches it in the source; an exception no
  handler catches makes the embedded function return `Except.error`.
* Calls to the two side-effecting collaborators of the resolution path
  (provider reads and cache writes, plus the cache read) are recorded in a
  `CallLog` so that claims about "no provider call" or "the ttl passed to
  put" are statements about the returned log.
-/

/-- Python/JSON values as they flow through the backend: payloads decoded
from the cache, bodies returned by the HTTP collaborators, and the
`sun_data` variable itself.  Python `None` is `JVal.null`.  Numbers are
modelled as integers, which covers every payload the claims touch. -/
inductive JVal where
  | null : JVal
  | bool : Bool → JVal
  | num : Int → JVal
  | str : String → JVal
  | arr : List JVal → JVal
  | obj : List (String × JVal) → JVal

/-- Python truthiness of a `JVal`: `None`, `False`, `0`, the empty string,
the empty list and the empty dict are falsy, everything else is truthy. -/
def truthy : JVal → Bool
  | .null => false
  | .bool b => b
  | .num n => n != 0
  | .str s => s != ""
  | .arr xs => !xs.isEmpty
  | .obj fs => !fs.isEmpty

/-- Dictionary lookup, modelling Python `d.get(key)` on a dict rendered as
an association list (first binding wins, as dict keys are unique). -/
def lookupField : List (String × JVal) → String → Option JVal
  | [], _ => none
  | (k, v) :: rest, key => if k = key then some v else lookupField rest key

/-- ASCII lower-casing of one character, modelling `str.lower` on the
characters the date keywords use. -/
def lowerChar (c : Char) : Char :=
  if 65 ≤ c.toNat ∧ c.toNat ≤ 90 then Char.ofNat (c.toNat + 32) else c

/-- Python `s.lower()` (ASCII range, which covers the date keywords). -/
def pyLower (s : String) : String := String.mk (s.data.map lowerChar)

/-- Python `s.strip()` (whitespace trimming, used on the city parameter). -/
def pyStrip (s : String) : String :=
  String.mk (((s.data.dropWhile Char.isWhitespace).reverse.dropWhile Char.isWhitespace).reverse)

/-- Rendering of a calendar date (an integer day number) to its canonical
string, modelling `d.strftime` with the `YYYY-MM-DD` pattern: a
deterministic, injective rendering of the date. -/
def fmtDate (d : Int) : String := toString d

/-- Source constant `SHORT_TTL = 60 * 60` (seconds): cache lifetime for
payloads whose resolved date is today. -/
def SHORT_TTL : Nat := 60 * 60

/-- Source constant `LONG_TTL = 60 * 60 * 24` (seconds): cache lifetime for
payloads whose resolved date is not today. -/
def LONG_TTL : Nat := 60 * 60 * 24

/-- Cache key construction from `get_sunspot`: the f-string
`sunspot:data:` followed by latitude, longitude and the resolved date,
colon-separated (`REDIS_KEY_PREFIX` is the literal `sunspot:data`). -/
def cache_key (lat lon resolved : String) : String :=
  "sunspot:data:" ++ lat ++ ":" ++ lon ++ ":" ++ resolved

/-- Environment of external collaborators consumed by the backend.
`Except.error ()` models the collaborator raising an exception. -/
structure Env where
  /-- dateutil's `parser.parse`: a permissive date-string parse returning a
  datetime, modelled as a (date, time-of-day) pair; `none` is the
  `ValueError` raised on an unparseable token. -/
  parse : String → Option (Int × Nat)
  /-- `date.today()`: the ambient current date, constant during a request. -/
  today : Int
  /-- Whether `redis_client` is not `None` (the startup connection and ping
  succeeded). -/
  redisAvail : Bool
  /-- `redis_client.get`: `none` is a missing key (Redis nil reply). -/
  redisGet : String → Except Unit (Option String)
  /-- `redis_client.set` with an expiry. -/
  redisSet : String → String → Nat → Except Unit Unit
  /-- `requests.get` on the sunrise-sunset API composed with
  `raise_for_status` and `r.json()`: takes lat, lng and the optional raw
  date hint, returns the decoded body or raises. -/
  sunApi : String → String → Option String → Except Unit JVal
  /-- `json.loads`: `none` is `JSONDecodeError`. -/
  jsonLoads : String → Option JVal
  /-- `json.dumps` on a payload (total on `JVal`). -/
  jsonDumps : JVal → String
  /-- Nominatim search request (by city) with status check and decoding. -/
  searchApi : String → Except Unit JVal
  /-- Nominatim reverse request (by lat, lon) with status check and decoding. -/
  reverseApi : String → String → Except Unit JVal
  /-- Python `str(float(s))`: `none` is the `ValueError` on a non-numeric
  string. -/
  pyFloatStr : String → Option String
  /-- Python f-string rendering of a decoded JSON value (used when
  coordinates extracted from a geocoding response are interpolated). -/
  pyStr : JVal → String

/-- `resolve_date_param` from the source: absent or falsy token, or one
lower-casing to `today`, resolves to the reference date; `yesterday` and
`tomorrow` shift by one day; anything else goes through the permissive
parser, keeping only the date part; a parse failure yields `none`. -/
def resolve_date_param (parse : String → Option (Int × Nat)) (today : Int)
    (date_param : Option String) : Option String :=
  match date_param with
  | none => some (fmtDate today)
  | some s =>
    if s = "" ∨ pyLower s = "today" then some (fmtDate today)
    else if pyLower s = "yesterday" then some (fmtDate (today - 1))
    else if pyLower s = "tomorrow" then some (fmtDate (today + 1))
    else
      match parse s with
      | some dt => some (fmtDate dt.1)
      | none => none

/-- Record of the side-effecting calls `get_sunspot` made: how many
provider requests, how many cache reads, and every cache write attempted,
with the key, serialized value and ttl passed to `set`. -/
structure CallLog where
  providerCalls : Nat
  cacheGets : Nat
  cacheSets : List (String × String × Nat)

/-- Result of `get_sunspot`: the `sun_data` and resolved-date values it
returns, plus the log of collaborator calls it made on the way. -/
structure GsOut where
  sun_data : JVal
  resolved_date : Option String
  log : CallLog

/-- The provider date hint: `params` gains a `date` entry only when the raw
`date_param` is truthy. -/
def dateHint (dp : Option String) : Option String :=
  match dp with
  | none => none
  | some s => if s = "" then none else some s

/-- The cache-miss branch of `get_sunspot` (the body of its `try`): call
the provider, accept the payload only on a dict body whose `status` equals
`OK` and which carries a `results` key, then attempt the best-effort cache
write.  Every exception inside the `try` (request failure, HTTP error
status, JSON decode failure, a non-dict body making `data.get` raise, a
missing `results` key raising `KeyError`, a failing `redis_client.set`) is
caught by the handler, which only logs, so `sun_data` keeps whatever value
it had when the exception was raised. -/
def fetch_phase (env : Env) (lat lon : String) (dp : Option String)
    (key : String) (ttl : Nat) (gets : Nat) (resolved : String) : GsOut :=
  match env.sunApi lat lon (dateHint dp) with
  | .error _ => ⟨.null, some resolved, ⟨1, gets, []⟩⟩
  | .ok data =>
    match data with
    | .obj fs =>
      match lookupField fs "status" with
      | some (.str st) =>
        if st = "OK" then
          match lookupField fs "results" with
          | some res =>
            if truthy res && env.redisAvail then
              let _setOutcome := env.redisSet key (env.jsonDumps res) ttl
              ⟨res, some resolved, ⟨1, gets, [(key, env.jsonDumps res, ttl)]⟩⟩
            else ⟨res, some resolved, ⟨1, gets, []⟩⟩
          | none => ⟨.null, some resolved, ⟨1, gets, []⟩⟩
        else ⟨.null, some resolved, ⟨1, gets, []⟩⟩
      | _ => ⟨.null, some resolved, ⟨1, gets, []⟩⟩
    | _ => ⟨.null, some resolved, ⟨1, gets, []⟩⟩

/-- The cache-read phase of `get_sunspot`: when the client exists, read the
key — the source has no handler around `redis_client.get`, so a raising
read is an uncaught `Except.error` — and decode a truthy reply, a decode
failure forcing the miss value `null`; a missing client, a missing key or
a falsy reply also leave `sun_data` at `null` (Python `None`). -/
def read_phase (env : Env) (key : String) : Except Unit JVal :=
  if env.redisAvail then
    match env.redisGet key with
    | .error _ => .error ()
    | .ok cached =>
      .ok
        (match cached with
         | some s =>
           if s = "" then .null
           else
             match env.jsonLoads s with
             | some v => v
             | none => .null
         | none => .null)
  else .ok .null

/-- `get_sunspot` from the source.  An unresolvable date returns
`(None, None)` before any collaborator is touched.  Otherwise the cache is
read (`read_phase`; a raising read propagates uncaught), a payload other
than JSON `null` is a hit returned as is, and everything else falls
through to `fetch_phase`.  The ttl is `SHORT_TTL` exactly when the
resolved date renders equal to today, `LONG_TTL` otherwise. -/
def get_sunspot (env : Env) (lat lon : String) (dp : Option String) :
    Except CallLog GsOut :=
  match resolve_date_param env.parse env.today dp with
  | none => .ok ⟨.null, none, ⟨0, 0, []⟩⟩
  | some resolved =>
    match read_phase env (cache_key lat lon resolved) with
    | .error _ => .error ⟨0, 1, []⟩
    | .ok .null =>
      .ok (fetch_phase env lat lon dp (cache_key lat lon resolved)
        (if resolved = fmtDate env.today then SHORT_TTL else LONG_TTL)
        (if env.redisAvail then 1 else 0) resolved)
    | .ok v =>
      .ok ⟨v, some resolved, ⟨0, if env.redisAvail then 1 else 0, []⟩⟩

/-- The synthesized fallback label of the reverse lookup, the f-string
`Location lat, lon` with the raw coordinates interpolated. -/
def locLabel (lat lon : String) : String :=
  "Location " ++ lat ++ ", " ++ lon

/-- Python `a or b or ...`: the first truthy operand, else the final
operand (here supplied as the default `d`). -/
def orChain : List (Option JVal) → JVal → JVal
  | [], d => d
  | o :: rest, d =>
    match o with
    | some v => if truthy v then v else orChain rest d
    | none => orChain rest d

/-- `get_city_from_coordinates` from the source: reverse-geocode, prefer
the first truthy of `city`, `town`, `village`, `hamlet` inside `address`,
fall back to `display_name` (or, when that key is absent, to the
synthesized label), and on any exception — a failing request, a non-2xx
status, an undecodable or non-dict body, or a non-dict `address` value
making `.get` raise — return the synthesized label.  It never raises. -/
def get_city_from_coordinates (env : Env) (lat lon : String) : JVal :=
  match env.reverseApi lat lon with
  | .error _ => .str (locLabel lat lon)
  | .ok data =>
    match data with
    | .obj fs =>
      let address := match lookupField fs "address" with
        | some a => a
        | none => .obj []
      match address with
      | .obj afs =>
        orChain
          [lookupField afs "city", lookupField afs "town",
           lookupField afs "village", lookupField afs "hamlet"]
          (match lookupField fs "display_name" with
           | some d => d
           | none => .str (locLabel lat lon))
      | _ => .str (locLabel lat lon)
    | _ => .str (locLabel lat lon)

/-- `get_coordinates_from_city` from the source: search Nominatim, and when
the decoded body is a non-empty list whose first element is a dict with
truthy `lat` and `lon` entries return them, otherwise — including every
exception path, all caught by the bare handler — return `(None, None)`. -/
def get_coordinates_from_city (env : Env) (city : String) :
    Option JVal × Option JVal :=
  match env.searchApi city with
  | .error _ => (none, none)
  | .ok data =>
    match data with
    | .arr (d0 :: _) =>
      match d0 with
      | .obj fs =>
        match lookupField fs "lat", lookupField fs "lon" with
        | some la, some lo =>
          if truthy la && truthy lo then (some la, some lo) else (none, none)
        | _, _ => (none, none)
      | _ => (none, none)
    | _ => (none, none)

/-- A `JsonResponse` error body. -/
def errBody (msg : String) : JVal := .obj [("error", .str msg)]

/-- Python truthiness of an optional request parameter (`None` and the
empty string are falsy). -/
def truthyOpt : Option String → Bool
  | none => false
  | some s => s != ""

/-- Tail of `sunspot_view` once coordinates are settled: run
`get_sunspot` (whose uncaught exceptions propagate through the view), and
on truthy sun data answer 200 with the city label (synthesized when the
resolved name is falsy), the coordinate values, the resolved date and the
payload; otherwise answer the combined 503 error. -/
def viewRespond (env : Env) (cityName : JVal) (latS lonS : String)
    (latJ lonJ : JVal) (dp : Option String) : Except CallLog (Nat × JVal) :=
  match get_sunspot env latS lonS dp with
  | .error l => .error l
  | .ok out =>
    if truthy out.sun_data then
      let cn := if truthy cityName then cityName else .str (locLabel latS lonS)
      .ok (200, .obj
        [("city", cn), ("latitude", latJ), ("longitude", lonJ),
         ("date_requested",
          match out.resolved_date with
          | some r => .str r
          | none => .null),
         ("sun_data", out.sun_data)])
    else
      .ok (503, errBody "Could not retrieve sunspot data or invalid date parameter")

/-- `sunspot_view` from the source: a truthy `city` is stripped and
forward-geocoded (404 when that fails), else truthy `lat` and `lon` are
normalized through `str(float(...))` (400 on `ValueError`) and
reverse-geocoded for the display name, else 400 for missing parameters;
the surviving coordinates reach `get_sunspot` via `viewRespond`.  In the
city branch the decoded coordinate values are interpolated by f-strings;
that rendering (`env.pyStr`) is applied once at this boundary. -/
def sunspot_view (env : Env) (city lat lon dp : Option String) :
    Except CallLog (Nat × JVal) :=
  if truthyOpt city then
    let cn := pyStrip (city.getD "")
    match get_coordinates_from_city env cn with
    | (some latJ, some lonJ) =>
      if truthy latJ && truthy lonJ then
        viewRespond env (.str cn) (env.pyStr latJ) (env.pyStr lonJ) latJ lonJ dp
      else .ok (404, errBody ("Could not find coordinates for city: " ++ cn))
    | _ => .ok (404, errBody ("Could not find coordinates for city: " ++ cn))
  else if truthyOpt lat && truthyOpt lon then
    match env.pyFloatStr (lat.getD ""), env.pyFloatStr (lon.getD "") with
    | some latF, some lonF =>
      viewRespond env (get_city_from_coordinates env latF lonF)
        latF lonF (.str latF) (.str lonF) dp
    | _, _ => .ok (400, errBody "Invalid lat/lon format")
  else .ok (400, errBody "Missing city or lat/lon")

/-- A successful provider payload used by concrete environments. -/
def okPayload : JVal := .obj [("sunrise", .str "6:41:06 AM")]

/-- A successful provider body: status `OK` with a results payload. -/
def okBody : JVal := .obj [("status", .str "OK"), ("results", okPayload)]

/-- A baseline concrete environment: no Redis client, provider healthy,
permissive parser that accepts nothing, reference date `0`. -/
def envBase : Env where
  parse := fun _ => none
  today := 0
  redisAvail := false
  redisGet := fun _ => .ok none
  redisSet := fun _ _ _ => .ok ()
  sunApi := fun _ _ _ => .ok okBody
  jsonLoads := fun s =>
    if s = "null" then some .null
    else if s = "corrupt" then none
    else some (.obj [("cached", .bool true)])
  jsonDumps := fun _ => "serialized"
  searchApi := fun _ => .error ()
  reverseApi := fun _ _ => .error ()
  pyFloatStr := fun s => some s
  pyStr := fun _ => ""

/-- The cache key `get_sunspot` computes for a raw request, namely
`cache_key` applied to the canonical date the token resolves to (absent
when resolution fails): the composition of source lines 126-131. -/
def computed_cache_key (env : Env) (lat lon : String) (dp : Option String) :
    Option String :=
  (resolve_date_param env.parse env.today dp).map (cache_key lat lon)

/-- How many provider requests an invocation of `get_sunspot` made,
whether it returned or propagated an exception. -/
def providerCallsOf : Except CallLog GsOut → Nat
  | .ok o => o.log.providerCalls
  | .error l => l.providerCalls

/-- Whether a provider body passes the source's `data.get("status") == "OK"`
test: a dict whose `status` entry is the string `OK`. -/
def statusOK : JVal → Bool
  | .obj fs =>
    match lookupField fs "status" with
    | some (.str st) => st == "OK"
    | _ => false
  | _ => false

/-- An optional dict entry that Python's `or` chain would skip: absent, or
present with a falsy value. -/
def notTruthyField (o : Option JVal) : Prop :=
  ∀ v, o = some v → truthy v = false

/-- Environment refuting C1: the cache holds the decodable payload text
`null` under every key. -/
def envC1 : Env :=
  { envBase with redisAvail := true, redisGet := fun _ => .ok (some "null") }

/-- Environment for the C1 witness: the cache holds a payload decoding to
a non-null value. -/
def envC1W : Env :=
  { envBase with redisAvail := true, redisGet := fun _ => .ok (some "hit") }

/-- Environment for the C2 witness: empty cache with a live client, so a
write happens. -/
def envC2W : Env := { envBase with redisAvail := true }

/-- Environment refuting C3: the cache client connected at startup but now
raises on every get and every set; the provider is healthy. -/
def envC3 : Env :=
  { envBase with
    redisAvail := true,
    redisGet := fun _ => .error (), redisSet := fun _ _ _ => .error () }

/-- Environment for the C6 witness: reference date 5, and a permissive
parser accepting exactly the canonical rendering of that date. -/
def envC6W : Env :=
  { envBase with
    today := 5,
    parse := fun s => if s = "5" then some (5, 630) else none }

/-- Environment for the C8 witness: empty cache and a provider whose call
raises. -/
def envC8W : Env :=
  { envBase with redisAvail := true, sunApi := fun _ _ _ => .error () }

/-- Environment for the C9 witness: reverse geocoding answers with an
address carrying only a truthy `town` entry. -/
def envC9W : Env :=
  { envBase with
    reverseApi := fun _ _ => .ok (.obj
      [("address", .obj [("city", .str ""), ("town", .str "Hoboken")]),
       ("display_name", .str "Hoboken, New Jersey")]) }

/-- Environment for the C10 witness: the cache holds undecodable text and
the provider is healthy. -/
def envC10W : Env :=
  { envBase with redisAvail := true, redisGet := fun _ => .ok (some "corrupt") }

/-- Lower-casing the empty string gives the empty string. -/
theorem pyLower_empty : pyLower "" = "" := rfl

/-- A token lower-casing to a non-empty string is non-empty. -/
theorem ne_empty_of_pyLower {s t : String} (h : pyLower s = t) (ht : t ≠ "") :
    s ≠ "" := by
  intro hs
  subst hs
  exact ht (pyLower_empty ▸ h.symm)

/-- A keyword-free, truthy token is resolved through the permissive parser,
keeping only the date part of the parsed datetime. -/
theorem resolve_date_param_other (p : String → Option (Int × Nat)) (today : Int)
    (s : String) (h1 : s ≠ "") (h2 : pyLower s ≠ "today")
    (h3 : pyLower s ≠ "yesterday") (h4 : pyLower s ≠ "tomorrow") :
    resolve_date_param p today (some s) = (p s).map (fun dt => fmtDate dt.1) := by
  simp only [resolve_date_param]
  rw [if_neg (by simp [h1, h2]), if_neg h3, if_neg h4]
  cases p s <;> rfl

/-- An unresolvable date makes `get_sunspot` return `(None, None)` with no
collaborator call at all. -/
theorem get_sunspot_invalid_date (env : Env) (lat lon : String) (s : String)
    (h1 : s ≠ "") (h2 : pyLower s ≠ "today") (h3 : pyLower s ≠ "yesterday")
    (h4 : pyLower s ≠ "tomorrow") (h5 : env.parse s = none) :
    get_sunspot env lat lon (some s) = .ok ⟨.null, none, ⟨0, 0, []⟩⟩ := by
  unfold get_sunspot
  rw [resolve_date_param_other env.parse env.today s h1 h2 h3 h4, h5]
  rfl

/-- C5: for every unparseable date token, the sunspot resolution fails
immediately with the invalid-date result `(None, None)` and performs no
cache read, no cache write, and no provider call. -/
theorem c5_invalid_date_fails_fast (env : Env) (lat lon : String) (s : String)
    (h1 : s ≠ "") (h2 : pyLower s ≠ "today") (h3 : pyLower s ≠ "yesterday")
    (h4 : pyLower s ≠ "tomorrow") (h5 : env.parse s = none) :
    get_sunspot env lat lon (some s) = .ok ⟨.null, none, ⟨0, 0, []⟩⟩ :=
  get_sunspot_invalid_date env lat lon s h1 h2 h3 h4 h5

/-- C5 witness: the token `not-a-date` at a concrete environment. -/
theorem c5_witness :
    get_sunspot envBase "40.7" "-74.0" (some "not-a-date") =
      .ok ⟨.null, none, ⟨0, 0, []⟩⟩ :=
  c5_invalid_date_fails_fast envBase "40.7" "-74.0" "not-a-date"
    (by decide) (by decide) (by decide) (by decide) rfl

/-- C6: two date tokens that resolve to the same canonical date against the
same reference date yield identical computed cache keys, for every
coordinate pair and regardless of how the tokens were spelled. -/
theorem c6_equal_resolved_dates_collide (env : Env) (lat lon : String)
    (t1 t2 : Option String)
    (h : resolve_date_param env.parse env.today t1 =
         resolve_date_param env.parse env.today t2) :
    computed_cache_key env lat lon t1 = computed_cache_key env lat lon t2 := by
  unfold computed_cache_key
  rw [h]

/-- C6 witness: the spellings `TODAY` and the explicit canonical date equal
to today resolve alike and collide on the cache key. -/
theorem c6_witness :
    resolve_date_param envC6W.parse envC6W.today (some "TODAY") =
      resolve_date_param envC6W.parse envC6W.today (some "5") ∧
    computed_cache_key envC6W "40.7" "-74.0" (some "TODAY") =
      computed_cache_key envC6W "40.7" "-74.0" (some "5") :=
  ⟨rfl, c6_equal_resolved_dates_collide envC6W "40.7" "-74.0"
    (some "TODAY") (some "5") rfl⟩

/-- C7: date resolution case analysis — a falsy (absent or empty) token or
one lower-casing to `today` yields the reference date; `yesterday` and
`tomorrow` (case-insensitively) yield the reference date shifted by minus
and plus one day; any other token goes through the permissive parser with
the time-of-day discarded, and yields the invalid-date result exactly when
the parse fails. -/
theorem c7_date_resolver_cases :
    (∀ (p : String → Option (Int × Nat)) (today : Int),
        resolve_date_param p today none = some (fmtDate today)) ∧
    (∀ (p : String → Option (Int × Nat)) (today : Int) (s : String),
        s = "" ∨ pyLower s = "today" →
        resolve_date_param p today (some s) = some (fmtDate today)) ∧
    (∀ (p : String → Option (Int × Nat)) (today : Int) (s : String),
        pyLower s = "yesterday" →
        resolve_date_param p today (some s) = some (fmtDate (today - 1))) ∧
    (∀ (p : String → Option (Int × Nat)) (today : Int) (s : String),
        pyLower s = "tomorrow" →
        resolve_date_param p today (some s) = some (fmtDate (today + 1))) ∧
    (∀ (p : String → Option (Int × Nat)) (today : Int) (s : String),
        s ≠ "" → pyLower s ≠ "today" → pyLower s ≠ "yesterday" →
        pyLower s ≠ "tomorrow" →
        resolve_date_param p today (some s) = (p s).map (fun dt => fmtDate dt.1) ∧
        (resolve_date_param p today (some s) = none ↔ p s = none)) ∧
    (∀ (p1 p2 : String → Option (Int × Nat)) (today : Int) (s : String),
        (p1 s).map Prod.fst = (p2 s).map Prod.fst →
        resolve_date_param p1 today (some s) =
          resolve_date_param p2 today (some s)) := by
  refine ⟨fun p today => rfl, ?_, ?_, ?_, ?_, ?_⟩
  · intro p today s h
    simp only [resolve_date_param]
    rw [if_pos h]
  · intro p today s h
    have ht : ¬(s = "" ∨ pyLower s = "today") := by
      rintro (hs | hs)
      · exact absurd h (by subst hs; decide)
      · rw [h] at hs; exact absurd hs (by decide)
    simp only [resolve_date_param]
    rw [if_neg ht, if_pos h]
  · intro p today s h
    have hs : s ≠ "" := ne_empty_of_pyLower h (by decide)
    have ht : ¬(s = "" ∨ pyLower s = "today") := by
      rintro (h1 | h1)
      · exact hs h1
      · rw [h] at h1; exact absurd h1 (by decide)
    have hy : pyLower s ≠ "yesterday" := by rw [h]; decide
    simp only [resolve_date_param]
    rw [if_neg ht, if_neg hy, if_pos h]
  · intro p today s h1 h2 h3 h4
    constructor
    · exact resolve_date_param_other p today s h1 h2 h3 h4
    · rw [resolve_date_param_other p today s h1 h2 h3 h4]
      cases p s <;> simp
  · intro p1 p2 today s h
    simp only [resolve_date_param]
    by_cases h1 : s = "" ∨ pyLower s = "today"
    · rw [if_pos h1, if_pos h1]
    · rw [if_neg h1, if_neg h1]
      by_cases h3 : pyLower s = "yesterday"
      · rw [if_pos h3, if_pos h3]
      · rw [if_neg h3, if_neg h3]
        by_cases h4 : pyLower s = "tomorrow"
        · rw [if_pos h4, if_pos h4]
        · rw [if_neg h4, if_neg h4]
          cases hp1 : p1 s <;> cases hp2 : p2 s <;>
            rw [hp1, hp2] at h <;> simp_all

/-- C7 witness: the cases evaluated at concrete tokens — mixed-case
`YesterDay` shifts back a day, and a parsed datetime has its time-of-day
discarded. -/
theorem c7_witness :
    resolve_date_param (fun _ => none) 5 (some "YesterDay") = some "4" ∧
    resolve_date_param (fun t => if t = "2020-01-01 10:30" then some (3, 630) else none)
      5 (some "2020-01-01 10:30") = some "3" := by
  constructor
  · exact c7_date_resolver_cases.2.2.1 (fun _ => none) 5 "YesterDay" (by decide)
  · have h := (c7_date_resolver_cases.2.2.2.2.1
      (fun t => if t = "2020-01-01 10:30" then some (3, 630) else none) 5
      "2020-01-01 10:30" (by decide) (by decide) (by decide) (by decide)).1
    simpa using h

/-- The cache-read phase is a hit with value `v` whenever the client is
present and the stored payload is truthy and decodes to `v`. -/
theorem read_phase_hit (env : Env) (key s : String) (v : JVal)
    (hav : env.redisAvail = true) (hget : env.redisGet key = .ok (some s))
    (hs : s ≠ "") (hdec : env.jsonLoads s = some v) :
    read_phase env key = .ok v := by
  simp [read_phase, hav, hget, hs, hdec]

/-- Without a cache client the read phase is a silent miss. -/
theorem read_phase_no_client (env : Env) (key : String)
    (hna : env.redisAvail = false) : read_phase env key = .ok .null := by
  simp [read_phase, hna]

/-- A raising `redis_client.get` propagates out of the read phase. -/
theorem read_phase_raises (env : Env) (key : String)
    (hav : env.redisAvail = true) (hget : env.redisGet key = .error ()) :
    read_phase env key = .error () := by
  simp [read_phase, hav, hget]

/-- An undecodable cached payload leaves the read phase at the miss value. -/
theorem read_phase_corrupt (env : Env) (key s : String)
    (hav : env.redisAvail = true) (hget : env.redisGet key = .ok (some s))
    (hs : s ≠ "") (hdec : env.jsonLoads s = none) :
    read_phase env key = .ok .null := by
  simp [read_phase, hav, hget, hs, hdec]

/-- The miss branch always reports exactly one provider call, the given
read count, the given resolved date, and writes nothing or exactly one
entry at the given key and ttl. -/
theorem fetch_phase_cases (env : Env) (lat lon : String) (dp : Option String)
    (key : String) (ttl : Nat) (gets : Nat) (resolved : String) :
    (∃ v, fetch_phase env lat lon dp key ttl gets resolved =
        ⟨v, some resolved, ⟨1, gets, []⟩⟩) ∨
    (∃ v, fetch_phase env lat lon dp key ttl gets resolved =
        ⟨v, some resolved, ⟨1, gets, [(key, env.jsonDumps v, ttl)]⟩⟩) := by
  unfold fetch_phase
  repeat' split
  all_goals first
    | exact Or.inl ⟨_, rfl⟩
    | exact Or.inr ⟨_, rfl⟩

/-- A healthy provider response (dict body, status `OK`, a truthy
`results` payload) makes the miss branch return the payload and attempt
the cache write exactly when the client is present. -/
theorem fetch_phase_success (env : Env) (lat lon : String) (dp : Option String)
    (key : String) (ttl : Nat) (gets : Nat) (resolved : String)
    (fs : List (String × JVal)) (res : JVal)
    (hapi : env.sunApi lat lon (dateHint dp) = .ok (.obj fs))
    (hst : lookupField fs "status" = some (.str "OK"))
    (hrf : lookupField fs "results" = some res) (htr : truthy res = true) :
    fetch_phase env lat lon dp key ttl gets resolved =
      ⟨res, some resolved,
        ⟨1, gets, if env.redisAvail then [(key, env.jsonDumps res, ttl)] else []⟩⟩ := by
  simp only [fetch_phase, hapi, hst, hrf, htr, if_pos rfl, Bool.true_and]
  cases hav : env.redisAvail <;> simp [hav]

/-- A raising provider call leaves the miss branch at the `None` payload
with no cache write. -/
theorem fetch_phase_provider_error (env : Env) (lat lon : String)
    (dp : Option String) (key : String) (ttl : Nat) (gets : Nat)
    (resolved : String) (hapi : env.sunApi lat lon (dateHint dp) = .error ()) :
    fetch_phase env lat lon dp key ttl gets resolved =
      ⟨.null, some resolved, ⟨1, gets, []⟩⟩ := by
  simp [fetch_phase, hapi]

/-- A provider body that fails the `status == "OK"` test leaves the miss
branch at the `None` payload with no cache write. -/
theorem fetch_phase_not_ok (env : Env) (lat lon : String) (dp : Option String)
    (key : String) (ttl : Nat) (gets : Nat) (resolved : String) (data : JVal)
    (hapi : env.sunApi lat lon (dateHint dp) = .ok data)
    (hnok : statusOK data = false) :
    fetch_phase env lat lon dp key ttl gets resolved =
      ⟨.null, some resolved, ⟨1, gets, []⟩⟩ := by
  cases data with
  | obj fs =>
    simp only [fetch_phase, hapi]
    cases hlf : lookupField fs "status" with
    | none => simp [hlf]
    | some w =>
      cases w with
      | str st =>
        have hne : st ≠ "OK" := by
          simp [statusOK, hlf] at hnok
          intro he
          rw [he] at hnok
          exact hnok rfl
        simp [hlf, hne]
      | null => simp [hlf]
      | bool b => simp [hlf]
      | num n => simp [hlf]
      | arr xs => simp [hlf]
      | obj gs => simp [hlf]
  | null => simp [fetch_phase, hapi]
  | bool b => simp [fetch_phase, hapi]
  | num n => simp [fetch_phase, hapi]
  | str t => simp [fetch_phase, hapi]
  | arr xs => simp [fetch_phase, hapi]

/-- Every invocation of `get_sunspot` has one of five shapes: invalid date
with no calls; a propagated cache-read exception after one read; a hit
with no provider call and no write; a miss returning after one provider
call with no write; or a miss returning after one provider call and one
write at the computed key with the freshness-chosen ttl. -/
theorem get_sunspot_shapes (env : Env) (lat lon : String) (dp : Option String) :
    get_sunspot env lat lon dp = .ok ⟨.null, none, ⟨0, 0, []⟩⟩ ∨
    get_sunspot env lat lon dp = .error ⟨0, 1, []⟩ ∨
    (∃ r v g, get_sunspot env lat lon dp = .ok ⟨v, some r, ⟨0, g, []⟩⟩) ∨
    (∃ r v g, get_sunspot env lat lon dp = .ok ⟨v, some r, ⟨1, g, []⟩⟩) ∨
    (∃ r v g, get_sunspot env lat lon dp = .ok ⟨v, some r,
        ⟨1, g, [(cache_key lat lon r, env.jsonDumps v,
          if r = fmtDate env.today then SHORT_TTL else LONG_TTL)]⟩⟩) := by
  cases hres : resolve_date_param env.parse env.today dp with
  | none =>
    left
    simp [get_sunspot, hres]
  | some r =>
    cases hread : read_phase env (cache_key lat lon r) with
    | error u =>
      right; left
      simp [get_sunspot, hres, hread]
    | ok v =>
      cases v with
      | null =>
        have heq : get_sunspot env lat lon dp =
            .ok (fetch_phase env lat lon dp (cache_key lat lon r)
              (if r = fmtDate env.today then SHORT_TTL else LONG_TTL)
              (if env.redisAvail then 1 else 0) r) := by
          simp [get_sunspot, hres, hread]
        rcases fetch_phase_cases env lat lon dp (cache_key lat lon r)
            (if r = fmtDate env.today then SHORT_TTL else LONG_TTL)
            (if env.redisAvail then 1 else 0) r with ⟨w, hw⟩ | ⟨w, hw⟩
        · right; right; right; left
          exact ⟨r, w, _, by rw [heq, hw]⟩
        · right; right; right; right
          exact ⟨r, w, _, by rw [heq, hw]⟩
      | bool b =>
        right; right; left
        refine ⟨r, .bool b, if env.redisAvail then 1 else 0, ?_⟩
        simp [get_sunspot, hres, hread]
      | num n =>
        right; right; left
        refine ⟨r, .num n, if env.redisAvail then 1 else 0, ?_⟩
        simp [get_sunspot, hres, hread]
      | str t =>
        right; right; left
        refine ⟨r, .str t, if env.redisAvail then 1 else 0, ?_⟩
        simp [get_sunspot, hres, hread]
      | arr xs =>
        right; right; left
        refine ⟨r, .arr xs, if env.redisAvail then 1 else 0, ?_⟩
        simp [get_sunspot, hres, hread]
      | obj gs =>
        right; right; left
        refine ⟨r, .obj gs, if env.redisAvail then 1 else 0, ?_⟩
        simp [get_sunspot, hres, hread]

/-- C1 counterexample: the cache holds the present, decodable payload text
`null` under the computed key, yet `get_sunspot` calls the provider once
and performs a cache write — because `json.loads` of that payload is
Python `None`, which the source cannot tell apart from "no cached data".
This refutes the claim as stated for this payload. -/
theorem c1_counterexample :
    envC1.redisGet (cache_key "40.7" "-74.0" "0") = .ok (some "null") ∧
    envC1.jsonLoads "null" = some .null ∧
    get_sunspot envC1 "40.7" "-74.0" none =
      .ok ⟨okPayload, some "0", ⟨1, 1,
        [("sunspot:data:40.7:-74.0:0", "serialized", SHORT_TTL)]⟩⟩ :=
  ⟨rfl, rfl, rfl⟩

/-- C1 (amended): for every coordinate pair and every date token that
resolves successfully, if the cache holds a present payload decoding to a
value other than JSON `null` under the computed key, then `get_sunspot`
returns that cached payload with the resolved canonical date, makes no
provider call, and performs no cache write. -/
theorem c1_amended_hit_bypasses_provider (env : Env) (lat lon : String)
    (dp : Option String) (r s : String) (v : JVal)
    (hres : resolve_date_param env.parse env.today dp = some r)
    (hav : env.redisAvail = true)
    (hget : env.redisGet (cache_key lat lon r) = .ok (some s))
    (hs : s ≠ "") (hdec : env.jsonLoads s = some v) (hv : v ≠ .null) :
    get_sunspot env lat lon dp = .ok ⟨v, some r, ⟨0, 1, []⟩⟩ := by
  have hr := read_phase_hit env (cache_key lat lon r) s v hav hget hs hdec
  cases v with
  | null => exact absurd rfl hv
  | bool b => simp [get_sunspot, hres, hr, hav]
  | num n => simp [get_sunspot, hres, hr, hav]
  | str t => simp [get_sunspot, hres, hr, hav]
  | arr xs => simp [get_sunspot, hres, hr, hav]
  | obj fs => simp [get_sunspot, hres, hr, hav]

/-- C1 witness: a concrete hit returns the cached object with no provider
call and no write. -/
theorem c1_witness :
    get_sunspot envC1W "40.7" "-74.0" none =
      .ok ⟨.obj [("cached", .bool true)], some "0", ⟨0, 1, []⟩⟩ :=
  c1_amended_hit_bypasses_provider envC1W "40.7" "-74.0" none "0" "hit"
    (.obj [("cached", .bool true)]) rfl rfl rfl (by decide) rfl
    (fun h => JVal.noConfusion h)

/-- C2: the TTL passed to every cache write of the sunspot resolution is
the SHORT duration (3600 seconds) when the resolved canonical date equals
the resolver's current date and the LONG duration (86400 seconds)
otherwise, SHORT being strictly shorter than LONG; an invocation that
propagates an exception performed no write. -/
theorem c2_ttl_law :
    SHORT_TTL = 3600 ∧ LONG_TTL = 86400 ∧ SHORT_TTL < LONG_TTL ∧
    (∀ (env : Env) (lat lon : String) (dp : Option String) (out : GsOut)
        (e : String × String × Nat),
      get_sunspot env lat lon dp = .ok out → e ∈ out.log.cacheSets →
      ∃ r, out.resolved_date = some r ∧
        e.2.2 = if r = fmtDate env.today then SHORT_TTL else LONG_TTL) ∧
    (∀ (env : Env) (lat lon : String) (dp : Option String) (l : CallLog),
      get_sunspot env lat lon dp = .error l → l.cacheSets = []) := by
  refine ⟨rfl, rfl, by norm_num [SHORT_TTL, LONG_TTL], ?_, ?_⟩
  · intro env lat lon dp out e hok hmem
    rcases get_sunspot_shapes env lat lon dp with h | h | ⟨r, v, g, h⟩ |
        ⟨r, v, g, h⟩ | ⟨r, v, g, h⟩ <;> rw [h] at hok
    · cases hok; simp at hmem
    · cases hok
    · cases hok; simp at hmem
    · cases hok; simp at hmem
    · cases hok
      rw [List.mem_singleton] at hmem
      subst hmem
      exact ⟨r, rfl, rfl⟩
  · intro env lat lon dp l herr
    rcases get_sunspot_shapes env lat lon dp with h | h | ⟨r, v, g, h⟩ |
        ⟨r, v, g, h⟩ | ⟨r, v, g, h⟩ <;> rw [h] at herr <;> cases herr
    rfl

/-- C2 witness: a concrete miss-and-store run writes with the SHORT ttl,
the resolved date being today. -/
theorem c2_witness :
    ∃ r, (⟨okPayload, some "0", ⟨1, 1,
        [("sunspot:data:40.7:-74.0:0", "serialized", SHORT_TTL)]⟩⟩ : GsOut).resolved_date
        = some r ∧
      ("sunspot:data:40.7:-74.0:0", "serialized", SHORT_TTL).2.2 =
        if r = fmtDate envC2W.today then SHORT_TTL else LONG_TTL :=
  c2_ttl_law.2.2.2.1 envC2W "40.7" "-74.0" none
    ⟨okPayload, some "0", ⟨1, 1,
      [("sunspot:data:40.7:-74.0:0", "serialized", SHORT_TTL)]⟩⟩
    ("sunspot:data:40.7:-74.0:0", "serialized", SHORT_TTL)
    rfl (List.mem_singleton.mpr rfl)

/-- C3 counterexample: with a connected cache client whose every get and
set raises, the resolution does not succeed via the provider — the
unhandled `redis_client.get` exception propagates out of `get_sunspot`
and out of the view, with the healthy provider never called.  This
refutes the claim that no cache failure is surfaced to the caller. -/
theorem c3_counterexample :
    envC3.sunApi "40.7" "-74.0" none = .ok okBody ∧
    get_sunspot envC3 "40.7" "-74.0" none = .error ⟨0, 1, []⟩ ∧
    sunspot_view envC3 none (some "40.7") (some "-74.0") none =
      .error ⟨0, 1, []⟩ :=
  ⟨rfl, rfl, rfl⟩

/-- C3 (amended): a failing cache write is swallowed — the result of
`get_sunspot` does not depend on the `set` collaborator at all; when the
cache client is absent (the startup connection failed), resolution
succeeds via a direct provider call; but a cache read that raises
propagates the error to the caller instead of degrading to a miss. -/
theorem c3_amended_cache_failure_behavior :
    (∀ (env : Env) (f : String → String → Nat → Except Unit Unit)
        (lat lon : String) (dp : Option String),
      get_sunspot { env with redisSet := f } lat lon dp =
        get_sunspot env lat lon dp) ∧
    (∀ (env : Env) (lat lon : String) (dp : Option String) (r : String)
        (fs : List (String × JVal)) (res : JVal),
      env.redisAvail = false →
      resolve_date_param env.parse env.today dp = some r →
      env.sunApi lat lon (dateHint dp) = .ok (.obj fs) →
      lookupField fs "status" = some (.str "OK") →
      lookupField fs "results" = some res → truthy res = true →
      get_sunspot env lat lon dp = .ok ⟨res, some r, ⟨1, 0, []⟩⟩) ∧
    (∀ (env : Env) (lat lon : String) (dp : Option String) (r : String),
      env.redisAvail = true →
      resolve_date_param env.parse env.today dp = some r →
      env.redisGet (cache_key lat lon r) = .error () →
      get_sunspot env lat lon dp = .error ⟨0, 1, []⟩) := by
  refine ⟨?_, ?_, ?_⟩
  · intro env f lat lon dp
    rfl
  · intro env lat lon dp r fs res hna hres hapi hst hrf htr
    have hr := read_phase_no_client env (cache_key lat lon r) hna
    have hf := fetch_phase_success env lat lon dp (cache_key lat lon r)
      (if r = fmtDate env.today then SHORT_TTL else LONG_TTL) 0 r fs res
      hapi hst hrf htr
    simp [get_sunspot, hres, hr, hna, hf]
  · intro env lat lon dp r hav hres hget
    have hr := read_phase_raises env (cache_key lat lon r) hav hget
    simp [get_sunspot, hres, hr]

/-- C3 witness: the absent-client degradation succeeds via the provider at
a concrete environment, and the raising read propagates at another. -/
theorem c3_witness :
    get_sunspot envBase "40.7" "-74.0" none =
      .ok ⟨okPayload, some "0", ⟨1, 0, []⟩⟩ ∧
    get_sunspot envC3 "1.0" "2.0" (some "tomorrow") = .error ⟨0, 1, []⟩ :=
  ⟨c3_amended_cache_failure_behavior.2.1 envBase "40.7" "-74.0" none "0"
      [("status", .str "OK"), ("results", okPayload)] okPayload
      rfl rfl rfl rfl rfl rfl,
   c3_amended_cache_failure_behavior.2.2 envC3 "1.0" "2.0" (some "tomorrow")
      "1" rfl rfl rfl⟩

/-- C10: a present cache entry whose payload is not valid JSON is treated
as a miss — the resolution neither fails nor returns the corrupt data; it
calls the provider and, on success, overwrites the entry with the fresh
payload at the same key. -/
theorem c10_corrupt_cache_entry_is_miss (env : Env) (lat lon : String)
    (dp : Option String) (r s : String) (fs : List (String × JVal)) (res : JVal)
    (hres : resolve_date_param env.parse env.today dp = some r)
    (hav : env.redisAvail = true)
    (hget : env.redisGet (cache_key lat lon r) = .ok (some s))
    (hs : s ≠ "") (hbad : env.jsonLoads s = none)
    (hapi : env.sunApi lat lon (dateHint dp) = .ok (.obj fs))
    (hst : lookupField fs "status" = some (.str "OK"))
    (hrf : lookupField fs "results" = some res) (htr : truthy res = true) :
    get_sunspot env lat lon dp =
      .ok ⟨res, some r, ⟨1, 1,
        [(cache_key lat lon r, env.jsonDumps res,
          if r = fmtDate env.today then SHORT_TTL else LONG_TTL)]⟩⟩ := by
  have hr := read_phase_corrupt env (cache_key lat lon r) s hav hget hs hbad
  have hf := fetch_phase_success env lat lon dp (cache_key lat lon r)
    (if r = fmtDate env.today then SHORT_TTL else LONG_TTL) 1 r fs res
    hapi hst hrf htr
  simp [get_sunspot, hres, hr, hav, hf]

/-- C10 witness: undecodable cached text at a concrete environment leads
to a provider call and an overwrite of the same key. -/
theorem c10_witness :
    get_sunspot envC10W "40.7" "-74.0" none =
      .ok ⟨okPayload, some "0", ⟨1, 1,
        [("sunspot:data:40.7:-74.0:0", "serialized", SHORT_TTL)]⟩⟩ :=
  c10_corrupt_cache_entry_is_miss envC10W "40.7" "-74.0" none "0" "corrupt"
    [("status", .str "OK"), ("results", okPayload)] okPayload
    rfl rfl rfl (by decide) rfl rfl rfl rfl rfl

/-- Python's `or` chain returns its default when every listed operand is
absent or falsy. -/
theorem orChain_skip (os : List (Option JVal)) (d : JVal)
    (h : ∀ o ∈ os, notTruthyField o) : orChain os d = d := by
  induction os with
  | nil => rfl
  | cons o rest ih =>
    have hrest : ∀ o ∈ rest, notTruthyField o :=
      fun o ho => h o (List.mem_cons_of_mem _ ho)
    cases o with
    | none => simpa [orChain] using ih hrest
    | some v =>
      have hv : truthy v = false := h (some v) (List.mem_cons_self _ _) v rfl
      simpa [orChain, hv] using ih hrest

/-- Python's `or` chain skips an absent or falsy leading operand. -/
theorem orChain_cons_skip (o : Option JVal) (os : List (Option JVal)) (d : JVal)
    (h : notTruthyField o) : orChain (o :: os) d = orChain os d := by
  cases o with
  | none => rfl
  | some v => simp [orChain, h v rfl]

/-- C8: at most one provider call is ever made per invocation of the
sunspot resolution; on a cache miss, a raising provider call or a body
failing the `status == "OK"` test leaves the resolution at the `None`
payload with no retry and no write, and the view surfaces a falsy payload
as the 503 response. -/
theorem c8_upstream_failure_and_single_call :
    (∀ (env : Env) (lat lon : String) (dp : Option String),
      providerCallsOf (get_sunspot env lat lon dp) ≤ 1) ∧
    (∀ (env : Env) (lat lon : String) (dp : Option String) (r : String),
      resolve_date_param env.parse env.today dp = some r →
      read_phase env (cache_key lat lon r) = .ok .null →
      (env.sunApi lat lon (dateHint dp) = .error () ∨
        ∃ data, env.sunApi lat lon (dateHint dp) = .ok data ∧
          statusOK data = false) →
      get_sunspot env lat lon dp =
        .ok ⟨.null, some r, ⟨1, if env.redisAvail then 1 else 0, []⟩⟩) ∧
    (∀ (env : Env) (lat lon latF lonF : String) (dp : Option String)
        (out : GsOut),
      lat ≠ "" → lon ≠ "" →
      env.pyFloatStr lat = some latF → env.pyFloatStr lon = some lonF →
      get_sunspot env latF lonF dp = .ok out →
      truthy out.sun_data = false →
      sunspot_view env none (some lat) (some lon) dp =
        .ok (503, errBody "Could not retrieve sunspot data or invalid date parameter")) := by
  refine ⟨?_, ?_, ?_⟩
  · intro env lat lon dp
    rcases get_sunspot_shapes env lat lon dp with h | h | ⟨r, v, g, h⟩ |
        ⟨r, v, g, h⟩ | ⟨r, v, g, h⟩ <;> rw [h] <;> simp [providerCallsOf]
  · intro env lat lon dp r hres hread hfail
    have hf : fetch_phase env lat lon dp (cache_key lat lon r)
        (if r = fmtDate env.today then SHORT_TTL else LONG_TTL)
        (if env.redisAvail then 1 else 0) r =
        ⟨.null, some r, ⟨1, if env.redisAvail then 1 else 0, []⟩⟩ := by
      rcases hfail with hapi | ⟨data, hapi, hnok⟩
      · exact fetch_phase_provider_error env lat lon dp _ _ _ r hapi
      · exact fetch_phase_not_ok env lat lon dp _ _ _ r data hapi hnok
    simp [get_sunspot, hres, hread, hf]
  · intro env lat lon latF lonF dp out hlat hlon hfl hfo hok hfalse
    simp [sunspot_view, viewRespond, truthyOpt, hlat, hlon, hfl, hfo, hok,
      hfalse]

/-- C8 witness: a raising provider at a concrete environment yields the
`None` payload after exactly one provider call, surfaced as 503. -/
theorem c8_witness :
    get_sunspot envC8W "40.7" "-74.0" none =
      .ok ⟨.null, some "0", ⟨1, if envC8W.redisAvail then 1 else 0, []⟩⟩ ∧
    sunspot_view envC8W none (some "40.7") (some "-74.0") none =
      .ok (503, errBody "Could not retrieve sunspot data or invalid date parameter") := by
  have h1 := c8_upstream_failure_and_single_call.2.1 envC8W "40.7" "-74.0"
    none "0" rfl rfl (Or.inl rfl)
  refine ⟨h1, ?_⟩
  exact c8_upstream_failure_and_single_call.2.2 envC8W "40.7" "-74.0"
    "40.7" "-74.0" none ⟨.null, some "0", ⟨1, 1, []⟩⟩
    (by decide) (by decide) rfl rfl (by exact h1) rfl

/-- C4 counterexample: a request with valid coordinates and the
unparseable date token `not-a-date` is answered with status 503 — the
server-side upstream status, not a 4xx client error — refuting the claim
as stated. -/
theorem c4_counterexample :
    envBase.parse "not-a-date" = none ∧
    sunspot_view envBase none (some "40.7") (some "-74.0") (some "not-a-date") =
      .ok (503, errBody "Could not retrieve sunspot data or invalid date parameter") ∧
    ¬(400 ≤ 503 ∧ 503 < 500) :=
  ⟨rfl, rfl, by decide⟩

/-- C4 (amended): a request whose date token fails to parse is answered
with the combined 503 error response — the same status used for upstream
failure, not a 4xx client error; the failure is not retried, the
resolution having made no cache read, no cache write and no provider
call. -/
theorem c4_amended_invalid_date_yields_503 (env : Env)
    (lat lon latF lonF s : String)
    (hlat : lat ≠ "") (hlon : lon ≠ "")
    (hfl : env.pyFloatStr lat = some latF) (hfo : env.pyFloatStr lon = some lonF)
    (h1 : s ≠ "") (h2 : pyLower s ≠ "today") (h3 : pyLower s ≠ "yesterday")
    (h4 : pyLower s ≠ "tomorrow") (h5 : env.parse s = none) :
    get_sunspot env latF lonF (some s) = .ok ⟨.null, none, ⟨0, 0, []⟩⟩ ∧
    sunspot_view env none (some lat) (some lon) (some s) =
      .ok (503, errBody "Could not retrieve sunspot data or invalid date parameter") := by
  have hg := get_sunspot_invalid_date env latF lonF s h1 h2 h3 h4 h5
  refine ⟨hg, ?_⟩
  simp [sunspot_view, viewRespond, truthyOpt, truthy, hlat, hlon, hfl, hfo, hg]

/-- C4 witness: the amended behavior at a concrete request. -/
theorem c4_witness :
    get_sunspot envBase "40.7" "-74.0" (some "bad-date") =
      .ok ⟨.null, none, ⟨0, 0, []⟩⟩ ∧
    sunspot_view envBase none (some "40.7") (some "-74.0") (some "bad-date") =
      .ok (503, errBody "Could not retrieve sunspot data or invalid date parameter") :=
  c4_amended_invalid_date_yields_503 envBase "40.7" "-74.0" "40.7" "-74.0"
    "bad-date" (by decide) (by decide) rfl rfl (by decide) (by decide)
    (by decide) (by decide) rfl

/-- C9: the reverse lookup never fails — a raising collaborator yields the
synthesized coordinate label; a structured locality field (`city`, then
`town`, then `village`, then `hamlet`) is preferred when truthy; when none
is present the free-form `display_name` is returned, and when that key is
absent too the synthesized label is returned. -/
theorem c9_reverse_lookup_never_fails :
    (∀ (env : Env) (lat lon : String),
      env.reverseApi lat lon = .error () →
      get_city_from_coordinates env lat lon = .str (locLabel lat lon)) ∧
    (∀ (env : Env) (lat lon : String) (fs afs : List (String × JVal)) (v : JVal),
      env.reverseApi lat lon = .ok (.obj fs) →
      lookupField fs "address" = some (.obj afs) →
      lookupField afs "city" = some v → truthy v = true →
      get_city_from_coordinates env lat lon = v) ∧
    (∀ (env : Env) (lat lon : String) (fs afs : List (String × JVal)) (v : JVal),
      env.reverseApi lat lon = .ok (.obj fs) →
      lookupField fs "address" = some (.obj afs) →
      notTruthyField (lookupField afs "city") →
      lookupField afs "town" = some v → truthy v = true →
      get_city_from_coordinates env lat lon = v) ∧
    (∀ (env : Env) (lat lon : String) (fs afs : List (String × JVal)) (v : JVal),
      env.reverseApi lat lon = .ok (.obj fs) →
      lookupField fs "address" = some (.obj afs) →
      notTruthyField (lookupField afs "city") →
      notTruthyField (lookupField afs "town") →
      lookupField afs "village" = some v → truthy v = true →
      get_city_from_coordinates env lat lon = v) ∧
    (∀ (env : Env) (lat lon : String) (fs afs : List (String × JVal)) (v : JVal),
      env.reverseApi lat lon = .ok (.obj fs) →
      lookupField fs "address" = some (.obj afs) →
      notTruthyField (lookupField afs "city") →
      notTruthyField (lookupField afs "town") →
      notTruthyField (lookupField afs "village") →
      lookupField afs "hamlet" = some v → truthy v = true →
      get_city_from_coordinates env lat lon = v) ∧
    (∀ (env : Env) (lat lon : String) (fs afs : List (String × JVal)) (d : JVal),
      env.reverseApi lat lon = .ok (.obj fs) →
      lookupField fs "address" = some (.obj afs) →
      notTruthyField (lookupField afs "city") →
      notTruthyField (lookupField afs "town") →
      notTruthyField (lookupField afs "village") →
      notTruthyField (lookupField afs "hamlet") →
      lookupField fs "display_name" = some d →
      get_city_from_coordinates env lat lon = d) ∧
    (∀ (env : Env) (lat lon : String) (fs afs : List (String × JVal)),
      env.reverseApi lat lon = .ok (.obj fs) →
      lookupField fs "address" = some (.obj afs) →
      notTruthyField (lookupField afs "city") →
      notTruthyField (lookupField afs "town") →
      notTruthyField (lookupField afs "village") →
      notTruthyField (lookupField afs "hamlet") →
      lookupField fs "display_name" = none →
      get_city_from_coordinates env lat lon = .str (locLabel lat lon)) := by
  refine ⟨?_, ?_, ?_, ?_, ?_, ?_, ?_⟩
  · intro env lat lon heq
    simp [get_city_from_coordinates, heq]
  · intro env lat lon fs afs v hapi haddr hc htr
    simp [get_city_from_coordinates, hapi, haddr, orChain, hc, htr]
  · intro env lat lon fs afs v hapi haddr hcn ht htr
    simp only [get_city_from_coordinates, hapi, haddr]
    cases hc : lookupField afs "city" with
    | none => simp [orChain, hc, ht, htr]
    | some w =>
      have hw : truthy w = false := hcn w hc
      simp [orChain, hc, hw, ht, htr]
  · intro env lat lon fs afs v hapi haddr n1 n2 hvg htr
    simp only [get_city_from_coordinates, hapi, haddr]
    rw [orChain_cons_skip _ _ _ n1, orChain_cons_skip _ _ _ n2]
    simp [orChain, hvg, htr]
  · intro env lat lon fs afs v hapi haddr n1 n2 n3 hh htr
    simp only [get_city_from_coordinates, hapi, haddr]
    rw [orChain_cons_skip _ _ _ n1, orChain_cons_skip _ _ _ n2,
      orChain_cons_skip _ _ _ n3]
    simp [orChain, hh, htr]
  · intro env lat lon fs afs d hapi haddr n1 n2 n3 n4 hd
    simp only [get_city_from_coordinates, hapi, haddr, hd]
    refine orChain_skip _ _ ?_
    intro o ho
    simp only [List.mem_cons, List.not_mem_nil, or_false] at ho
    rcases ho with rfl | rfl | rfl | rfl
    exacts [n1, n2, n3, n4]
  · intro env lat lon fs afs hapi haddr n1 n2 n3 n4 hd
    simp only [get_city_from_coordinates, hapi, haddr, hd]
    refine orChain_skip _ _ ?_
    intro o ho
    simp only [List.mem_cons, List.not_mem_nil, or_false] at ho
    rcases ho with rfl | rfl | rfl | rfl
    exacts [n1, n2, n3, n4]

/-- C9 witness: a falsy `city` entry is skipped in favor of the truthy
`town` at one concrete environment, and a raising collaborator yields the
synthesized label at another. -/
theorem c9_witness :
    get_city_from_coordinates envC9W "40.7" "-74.0" = .str "Hoboken" ∧
    get_city_from_coordinates envBase "40.7" "-74.0" =
      .str "Location 40.7, -74.0" :=
  ⟨c9_reverse_lookup_never_fails.2.2.1 envC9W "40.7" "-74.0"
      [("address", .obj [("city", .str ""), ("town", .str "Hoboken")]),
       ("display_name", .str "Hoboken, New Jersey")]
      [("city", .str ""), ("town", .str "Hoboken")] (.str "Hoboken")
      rfl rfl (fun v hv => by cases hv; rfl) rfl rfl,
   c9_reverse_lookup_never_fails.1 envBase "40.7" "-74.0" rfl⟩
